import Mathlib

/-!
Verification development for the ai-team-agents orchestration pipeline.

The Python sources are shallowly embedded as executable Lean definitions:
pure string manipulation becomes pure functions over `List Char` / `String`,
the completion service is an oracle (a function from call index and prompt to
an optional response, `none` modelling a transport failure that exhausts the
retry loop), fallible code returns `Except String`, and the per-run mutable
state record is threaded explicitly.  Logging, conversation-history
persistence and the random short identifiers are not observable by any
property below and are modelled as opaque string parameters where they feed
prompt text.
-/

namespace AiTeam

/-- Left brace character, written via its code point. -/
def lbrace : Char := Char.ofNat 123

/-- Right brace character, written via its code point. -/
def rbrace : Char := Char.ofNat 125

/-- Python whitespace set used by `str.strip` (ASCII part). -/
def pyWs (c : Char) : Bool :=
  c = ' ' || c = '\t' || c = '\n' || c = '\x0d' || c = '\x0b' || c = '\x0c'

/-- JSON whitespace set used by `json.loads`. -/
def jsonWs (c : Char) : Bool :=
  c = ' ' || c = '\t' || c = '\n' || c = '\x0d'

/-- Character-list prefix test (Python substring search helper). -/
def chPfx : List Char → List Char → Bool
  | [], _ => true
  | _ :: _, [] => false
  | a :: as, b :: bs => a = b && chPfx as bs

/-- Python substring containment `needle in hay` on character lists. -/
def chContains (needle : List Char) : List Char → Bool
  | [] => needle.isEmpty
  | c :: t => chPfx needle (c :: t) || chContains needle t

/-- Python substring containment `needle in hay` on strings. -/
def sContains (needle hay : String) : Bool :=
  chContains needle.data hay.data

/-- Python `str.strip()` (ASCII whitespace). -/
def pyStrip (s : String) : String :=
  ⟨((s.data.dropWhile pyWs).reverse.dropWhile pyWs).reverse⟩

/-- Python `str.lower()` restricted to ASCII and Latin-1 letters
(the only characters occurring in the classification keywords). -/
def pyCharLower (c : Char) : Char :=
  if 65 ≤ c.toNat ∧ c.toNat ≤ 90 then Char.ofNat (c.toNat + 32)
  else if 192 ≤ c.toNat ∧ c.toNat ≤ 222 ∧ c.toNat ≠ 215 then Char.ofNat (c.toNat + 32)
  else c

/-- Python `str.lower()` on a string. -/
def pyLower (s : String) : String :=
  ⟨s.data.map pyCharLower⟩

/-- Helper for `pySplit1`: first occurrence split on character lists. -/
def chSplitOnce (sep : List Char) : List Char → Option (List Char × List Char)
  | [] => none
  | c :: t =>
    if chPfx sep (c :: t) then some ([], (c :: t).drop sep.length)
    else match chSplitOnce sep t with
         | some (b, a) => some (c :: b, a)
         | none => none

/-- Python `s.split(sep, 1)`: a one- or two-element list. -/
def pySplit1 (sep s : String) : List String :=
  match chSplitOnce sep.data s.data with
  | some (b, a) => [⟨b⟩, ⟨a⟩]
  | none => [s]

/-- Python `s.replace(old, new)` (all occurrences) on character lists. -/
def chReplace (old new : List Char) : Nat → List Char → List Char
  | 0, cs => cs
  | _ + 1, [] => []
  | fuel + 1, c :: t =>
    if chPfx old (c :: t) ∧ old ≠ [] then
      new ++ chReplace old new fuel ((c :: t).drop old.length)
    else c :: chReplace old new fuel t

/-- Python `s.replace(old, new)` on strings. -/
def pyReplace (s old new : String) : String :=
  ⟨chReplace old.data new.data (s.data.length + 1) s.data⟩

/-- Python `sep.join(xs)`. -/
def pyJoin (sep : String) : List String → String
  | [] => ""
  | [x] => x
  | x :: y :: t => x ++ sep ++ pyJoin sep (y :: t)

/-- Index of the last non-newline character of a list, if any
(the backtracking step of the bullet pattern). -/
def lastNonNl (l : List Char) : Option Nat :=
  match l.reverse.findIdx? (· ≠ '\n') with
  | some k => some (l.length - 1 - k)
  | none => none

/-- One match of the regex tail after a bullet marker: Python
pattern fragment of a greedy whitespace run followed by a captured
non-empty run of non-newline characters, with backtracking.
Returns the capture and the remainder of the input. -/
def bulletCapture (rest : List Char) : Option (List Char × List Char) :=
  let w := rest.takeWhile pyWs
  let after := rest.drop w.length
  match after with
  | _ :: _ =>
    let cap := after.takeWhile (· ≠ '\n')
    some (cap, after.drop cap.length)
  | [] =>
    match lastNonNl w with
    | some i =>
      let cap := (w.drop i).takeWhile (· ≠ '\n')
      some (cap, (w.drop i).drop cap.length)
    | none => none

/-- Embedding of `re.findall` of the bullet pattern (a `-` or `*` marker, optional
whitespace, then a captured non-empty run of non-newline characters):
scans left to right, continuing after each match. -/
def bulletScan : Nat → List Char → List String
  | 0, _ => []
  | _ + 1, [] => []
  | fuel + 1, c :: t =>
    if c = '-' || c = '*' then
      match bulletCapture t with
      | some (cap, rest) => (⟨cap⟩ : String) :: bulletScan fuel rest
      | none => bulletScan fuel t
    else bulletScan fuel t

/-- All bullet captures of a string (the backend endpoint extraction). -/
def bulletFindAll (s : String) : List String :=
  bulletScan (s.data.length + 1) s.data

/-- JSON values as produced by `json.loads` (floats are not modelled;
no claim in this development depends on non-integer numbers). -/
inductive Json where
  | null
  | bool (b : Bool)
  | num (n : Int)
  | str (s : String)
  | arr (elems : List Json)
  | obj (entries : List (String × Json))

/-- Insert into an object the way successive dict assignment does:
an existing key keeps its position and its value is replaced,
a new key is appended. -/
def objInsert (k : String) (v : Json) : List (String × Json) → List (String × Json)
  | [] => [(k, v)]
  | (k0, v0) :: t =>
    if k0 = k then (k0, v) :: t else (k0, v0) :: objInsert k v t

/-- Last-write-wins association lookup (JSON objects built by
`objInsert` have unique keys, so this is plain lookup). -/
def objLookup (k : String) : List (String × Json) → Option Json
  | [] => none
  | (k0, v0) :: t => if k0 = k then some v0 else objLookup k t

/-- Hex digit value for string unescaping. -/
def hexVal (c : Char) : Option Nat :=
  if '0' ≤ c ∧ c ≤ '9' then some (c.toNat - 48)
  else if 'a' ≤ c ∧ c ≤ 'f' then some (c.toNat - 87)
  else if 'A' ≤ c ∧ c ≤ 'F' then some (c.toNat - 55)
  else none

/-- JSON string-body parser: input starts after the opening quote,
returns the decoded characters and the remainder after the closing
quote.  Escapes handled as in `json.loads`; lone surrogate escapes
are rejected (surrogate pairing is not modelled). -/
def pStrChars : List Char → Option (List Char × List Char)
  | [] => none
  | c :: t =>
    if c = '"' then some ([], t)
    else if c = '\\' then
      match t with
      | [] => none
      | e :: t2 =>
        if e = '"' then (fun p => (('"' : Char) :: p.1, p.2)) <$> pStrChars t2
        else if e = '\\' then (fun p => (('\\' : Char) :: p.1, p.2)) <$> pStrChars t2
        else if e = '/' then (fun p => (('/' : Char) :: p.1, p.2)) <$> pStrChars t2
        else if e = 'b' then (fun p => (('\x08' : Char) :: p.1, p.2)) <$> pStrChars t2
        else if e = 'f' then (fun p => (('\x0c' : Char) :: p.1, p.2)) <$> pStrChars t2
        else if e = 'n' then (fun p => (('\n' : Char) :: p.1, p.2)) <$> pStrChars t2
        else if e = 'r' then (fun p => (('\x0d' : Char) :: p.1, p.2)) <$> pStrChars t2
        else if e = 't' then (fun p => (('\t' : Char) :: p.1, p.2)) <$> pStrChars t2
        else if e = 'u' then
          match t2 with
          | h1 :: h2 :: h3 :: h4 :: t3 =>
            match hexVal h1, hexVal h2, hexVal h3, hexVal h4 with
            | some a, some b, some c2, some d =>
              let n := ((a * 16 + b) * 16 + c2) * 16 + d
              if n < 55296 ∨ 57343 < n then
                (fun p => (Char.ofNat n :: p.1, p.2)) <$> pStrChars t3
              else none
            | _, _, _, _ => none
          | _ => none
        else none
    else (fun p => (c :: p.1, p.2)) <$> pStrChars t

/-- JSON integer parser (optional minus, no leading zeros, and no
fraction or exponent: float literals are rejected by this model). -/
def pNum (cs : List Char) : Option (Int × List Char) :=
  let (neg, cs1) := match cs with
                    | '-' :: t => (true, t)
                    | _ => (false, cs)
  let digits := cs1.takeWhile (fun c => '0' ≤ c ∧ c ≤ '9')
  let rest := cs1.drop digits.length
  match digits with
  | [] => none
  | '0' :: _ :: _ => none
  | _ =>
    match rest with
    | '.' :: _ => none
    | 'e' :: _ => none
    | 'E' :: _ => none
    | _ =>
      let v : Nat := digits.foldl (fun a c => a * 10 + (c.toNat - 48)) 0
      some (if neg then -(v : Int) else (v : Int), rest)

/-- Skip JSON whitespace. -/
def skipJsonWs (cs : List Char) : List Char := cs.dropWhile jsonWs

mutual

/-- Fuel-indexed JSON value parser (the leading whitespace is assumed
already skipped). -/
def pVal : Nat → List Char → Option (Json × List Char)
  | 0, _ => none
  | fuel + 1, cs =>
    match cs with
    | [] => none
    | c :: t =>
      if c = '"' then (fun p => (Json.str ⟨p.1⟩, p.2)) <$> pStrChars t
      else if c = lbrace then pObjBody fuel (skipJsonWs t) []
      else if c = '[' then pArrBody fuel (skipJsonWs t)
      else if chPfx ['n', 'u', 'l', 'l'] cs then some (Json.null, cs.drop 4)
      else if chPfx ['t', 'r', 'u', 'e'] cs then some (Json.bool true, cs.drop 4)
      else if chPfx ['f', 'a', 'l', 's', 'e'] cs then some (Json.bool false, cs.drop 5)
      else (fun p => (Json.num p.1, p.2)) <$> pNum cs

/-- Array body parser: input starts after `[` and leading whitespace. -/
def pArrBody : Nat → List Char → Option (Json × List Char)
  | 0, _ => none
  | fuel + 1, cs =>
    match cs with
    | ']' :: t => some (Json.arr [], t)
    | _ =>
      match pVal fuel cs with
      | none => none
      | some (v, rest) => pArrTail fuel (skipJsonWs rest) [v]

/-- Array continuation parser: expects `,` or `]`. -/
def pArrTail : Nat → List Char → List Json → Option (Json × List Char)
  | 0, _, _ => none
  | fuel + 1, cs, acc =>
    match cs with
    | ']' :: t => some (Json.arr acc.reverse, t)
    | ',' :: t =>
      match pVal fuel (skipJsonWs t) with
      | none => none
      | some (v, rest) => pArrTail fuel (skipJsonWs rest) (v :: acc)
    | _ => none

/-- Object body parser: input starts after the opening brace and
leading whitespace; `acc` holds entries already parsed. -/
def pObjBody : Nat → List Char → List (String × Json) → Option (Json × List Char)
  | 0, _, _ => none
  | fuel + 1, cs, acc =>
    match cs with
    | c :: t =>
      if c = rbrace ∧ acc.isEmpty then some (Json.obj [], t)
      else if c = '"' then
        match pStrChars t with
        | none => none
        | some (kcs, rest1) =>
          match skipJsonWs rest1 with
          | ':' :: rest2 =>
            match pVal fuel (skipJsonWs rest2) with
            | none => none
            | some (v, rest3) => pObjTail fuel (skipJsonWs rest3) (objInsert ⟨kcs⟩ v acc)
          | _ => none
      else none
    | [] => none

/-- Object continuation parser: expects `,` (then a key) or the
closing brace. -/
def pObjTail : Nat → List Char → List (String × Json) → Option (Json × List Char)
  | 0, _, _ => none
  | fuel + 1, cs, acc =>
    match cs with
    | c :: t =>
      if c = rbrace then some (Json.obj acc, t)
      else if c = ',' then
        match skipJsonWs t with
        | '"' :: t2 =>
          match pStrChars t2 with
          | none => none
          | some (kcs, rest1) =>
            match skipJsonWs rest1 with
            | ':' :: rest2 =>
              match pVal fuel (skipJsonWs rest2) with
              | none => none
              | some (v, rest3) => pObjTail fuel (skipJsonWs rest3) (objInsert ⟨kcs⟩ v acc)
            | _ => none
        | _ => none
      else none
    | [] => none

end

/-- Embedding of `json.loads` on the modelled JSON subset: parse one value,
tolerating surrounding whitespace, and require the input to be
exhausted. -/
def json_loads (s : String) : Option Json :=
  let cs := skipJsonWs s.data
  match pVal (cs.length + 1) cs with
  | some (j, rest) => if skipJsonWs rest = [] then some j else none
  | none => none

/-- Lower-case hex digit of a value below 16. -/
def hexDigit (n : Nat) : Char :=
  if n < 10 then Char.ofNat (48 + n) else Char.ofNat (87 + n)

/-- String-literal body of `json.dumps` output (escapes quotes,
backslashes and control characters; `ensure_ascii=False` keeps the
rest verbatim). -/
def dumpsStrBody : List Char → String
  | [] => ""
  | c :: t =>
    (if c = '"' then "\\\""
     else if c = '\\' then "\\\\"
     else if c = '\n' then "\\n"
     else if c = '\t' then "\\t"
     else if c = '\x0d' then "\\r"
     else if c = '\x08' then "\\b"
     else if c = '\x0c' then "\\f"
     else if c.toNat < 32 then
       "\\u00" ++ ⟨[hexDigit (c.toNat / 16), hexDigit (c.toNat % 16)]⟩
     else (⟨[c]⟩ : String)) ++ dumpsStrBody t

/-- Embedding of `indent * " "` prefix used by `json.dumps(indent=2)`. -/
def dumpInd (level : Nat) : String := ⟨List.replicate (2 * level) ' '⟩

mutual

/-- Embedding of `json.dumps(v, indent=2, ensure_ascii=False)` at a nesting level. -/
def dumpsVal : Json → Nat → String
  | .null, _ => "null"
  | .bool true, _ => "true"
  | .bool false, _ => "false"
  | .num n, _ => toString n
  | .str s, _ => "\"" ++ dumpsStrBody s.data ++ "\""
  | .arr [], _ => "[]"
  | .arr (x :: xs), lvl =>
    "[\n" ++ dumpInd (lvl + 1) ++
      pyJoin (",\n" ++ dumpInd (lvl + 1)) (dumpsItems (x :: xs) (lvl + 1)) ++
      "\n" ++ dumpInd lvl ++ "]"
  | .obj [], _ => "\x7b\x7d"
  | .obj (e :: es), lvl =>
    "\x7b\n" ++ dumpInd (lvl + 1) ++
      pyJoin (",\n" ++ dumpInd (lvl + 1)) (dumpsEntries (e :: es) (lvl + 1)) ++
      "\n" ++ dumpInd lvl ++ "\x7d"

/-- Rendered array items. -/
def dumpsItems : List Json → Nat → List String
  | [], _ => []
  | x :: xs, lvl => dumpsVal x lvl :: dumpsItems xs lvl

/-- Rendered object entries (`"key": value`). -/
def dumpsEntries : List (String × Json) → Nat → List String
  | [], _ => []
  | (k, v) :: es, lvl =>
    ("\"" ++ dumpsStrBody k.data ++ "\": " ++ dumpsVal v lvl) :: dumpsEntries es lvl

end

/-- Top-level `json.dumps(v, indent=2, ensure_ascii=False)`. -/
def jsonDumps (v : Json) : String := dumpsVal v 0

mutual

/-- Python `str()` of a decoded JSON value, as interpolated into
f-strings and `str.format` (container rendering follows `repr`). -/
def pyStr : Json → String
  | .null => "None"
  | .bool true => "True"
  | .bool false => "False"
  | .num n => toString n
  | .str s => s
  | .arr xs => "[" ++ pyJoin ", " (pyReprList xs) ++ "]"
  | .obj es => "\x7b" ++ pyJoin ", " (pyReprEntries es) ++ "\x7d"

/-- Python `repr()` of a decoded JSON value (strings pick up quotes). -/
def pyRepr : Json → String
  | .str s => "\x27" ++ s ++ "\x27"
  | .null => "None"
  | .bool true => "True"
  | .bool false => "False"
  | .num n => toString n
  | .arr xs => "[" ++ pyJoin ", " (pyReprList xs) ++ "]"
  | .obj es => "\x7b" ++ pyJoin ", " (pyReprEntries es) ++ "\x7d"

/-- Embedding of `repr` of list elements. -/
def pyReprList : List Json → List String
  | [] => []
  | x :: xs => pyRepr x :: pyReprList xs

/-- Embedding of `repr` of dict entries. -/
def pyReprEntries : List (String × Json) → List String
  | [] => []
  | (k, v) :: es => ("\x27" ++ k ++ "\x27: " ++ pyRepr v) :: pyReprEntries es

end

/-- Python truthiness of a decoded JSON value. -/
def pyTruthy : Json → Bool
  | .null => false
  | .bool b => b
  | .num n => n ≠ 0
  | .str s => s ≠ ""
  | .arr xs => ¬xs.isEmpty
  | .obj es => ¬es.isEmpty

/-- Python `key in value` for a string key: key membership for a
dict, substring test for a string, element equality for a list;
`none` models the `TypeError` raised on other values. -/
def pyMembership (key : String) : Json → Option Bool
  | .obj es => some (objLookup key es).isSome
  | .str s => some (sContains key s)
  | .arr xs => some (xs.any (fun x => match x with
                                      | .str s => s = key
                                      | _ => false))
  | _ => none

/-- Python `value[key]` for a string key: dict lookup; `none` models
the `TypeError` raised when subscripting a string or list with a
string, or any non-container. -/
def pyGetItemKey (key : String) : Json → Option Json
  | .obj es => objLookup key es
  | _ => none

/-- Python `len()`: `Except` models the `TypeError` on unsized values. -/
def pyLenE : Json → Except String Int
  | .arr xs => .ok xs.length
  | .str s => .ok s.data.length
  | .obj es => .ok es.length
  | _ => .error "TypeError: object of type has no len()"

/-- Python iteration: list elements, string characters, dict keys;
`Except` models the `TypeError` on non-iterables. -/
def pyIterE : Json → Except String (List Json)
  | .arr xs => .ok xs
  | .str s => .ok (s.data.map (fun c => Json.str ⟨[c]⟩))
  | .obj es => .ok (es.map (fun e => Json.str e.1))
  | _ => .error "TypeError: object is not iterable"

/-- Python `value[i]` for an in-range non-negative integer index. -/
def pyIndexE (j : Json) (i : Int) : Except String Json :=
  match j with
  | .arr xs => match xs.get? i.toNat with
               | some v => .ok v
               | none => .error "IndexError: list index out of range"
  | .str s => match s.data.get? i.toNat with
              | some c => .ok (Json.str ⟨[c]⟩)
              | none => .error "IndexError: string index out of range"
  | _ => .error "TypeError: object is not subscriptable"

/-- Dict `get` with default. -/
def pyGetD (d : List (String × Json)) (k : String) (dflt : Json) : Json :=
  (objLookup k d).getD dflt

/-- Python `dict.update`: successive assignment of the new entries. -/
def pyDictUpdate (base : List (String × Json)) (upd : List (String × Json)) :
    List (String × Json) :=
  upd.foldl (fun acc e => objInsert e.1 e.2 acc) base

/-- Python `"sep".join(v)` over a decoded JSON value: iterate, then
require every element to be a string. -/
def pyJoinValsE (sep : String) (v : Json) : Except String String := do
  let elems ← pyIterE v
  let strs ← elems.mapM (fun e => match e with
                                  | .str s => Except.ok s
                                  | _ => Except.error "TypeError: sequence item is not str")
  return pyJoin sep strs

/-- Index of the first occurrence of a character. -/
def idxOfFirst (c : Char) (l : List Char) : Option Nat := l.findIdx? (· = c)

/-- Index of the last occurrence of a character. -/
def idxOfLast (c : Char) (l : List Char) : Option Nat :=
  (l.reverse.findIdx? (· = c)).map (fun k => l.length - 1 - k)

/-- Embedding of `re.search` of the greedy brace pattern used by `analyze_task`
(an opening brace, any characters, a closing brace): the leftmost
longest match runs from the first opening brace to the last closing
brace, provided the latter comes strictly after the former. -/
def greedySpan (s : String) : Option String :=
  match idxOfFirst lbrace s.data, idxOfLast rbrace s.data with
  | some i, some j =>
    if i < j then some ⟨(s.data.drop i).take (j - i + 1)⟩ else none
  | _, _ => none

/-- Default structure used by `analyze_task` when no JSON can be
recovered from the extraction response. -/
def defaultParsed : Json :=
  Json.obj [("frontend_tasks", Json.arr []), ("backend_tasks", Json.arr []),
            ("integration_points", Json.arr [])]

/-- The `parsed_json` value computed by `analyze_task`: parse the full
response, on failure parse the greedy brace span, on failure (or no
span) fall back to the default structure. -/
def parsedJsonOf (extraction : String) : Json :=
  match json_loads extraction with
  | some j => j
  | none =>
    match greedySpan extraction with
    | some sub => (json_loads sub).getD defaultParsed
    | none => defaultParsed

/-- One conditional field update `if key in parsed: result[key] = parsed[key]`;
`none` models a raised `TypeError` (caught by the enclosing handler). -/
def fieldUpdate (parsed : Json) (key : String) (cur : Json) : Option Json :=
  match pyMembership key parsed with
  | none => none
  | some false => some cur
  | some true =>
    match pyGetItemKey key parsed with
    | none => none
    | some v => some v

/-- The three conditional field updates of `analyze_task` applied to
the recovered `parsed_json` value; a raised `TypeError` anywhere is
caught by the enclosing handler, which resets all three fields to
empty lists. -/
def updateFields (parsed : Json) : Json × Json × Json :=
  match fieldUpdate parsed "frontend_tasks" (Json.arr []) with
  | none => (Json.arr [], Json.arr [], Json.arr [])
  | some f =>
    match fieldUpdate parsed "backend_tasks" (Json.arr []) with
    | none => (Json.arr [], Json.arr [], Json.arr [])
    | some b =>
      match fieldUpdate parsed "integration_points" (Json.arr []) with
      | none => (Json.arr [], Json.arr [], Json.arr [])
      | some ip => (f, b, ip)

/-- The `(frontend_tasks, backend_tasks, integration_points)` triple
produced by the parsing section of `analyze_task` from the extraction
response. -/
def parseExtraction (extraction : String) : Json × Json × Json :=
  updateFields (parsedJsonOf extraction)

/-- Balanced-span length starting at an opening brace (depth count). -/
def balLenAux : List Char → Nat → Nat → Option Nat
  | [], _, _ => none
  | c :: t, depth, len =>
    if c = lbrace then balLenAux t (depth + 1) (len + 1)
    else if c = rbrace then
      if depth = 1 then some (len + 1) else balLenAux t (depth - 1) (len + 1)
    else balLenAux t depth (len + 1)

/-- First balanced brace-delimited substring of a character list. -/
def firstBalanced : List Char → Option (List Char)
  | [] => none
  | c :: t =>
    if c = lbrace then
      match balLenAux (c :: t) 0 0 with
      | some n => some ((c :: t).take n)
      | none => firstBalanced t
    else firstBalanced t

/-- Modelled from the spec: the "first balanced brace-delimited
substring" that the spec says the fallback pattern match extracts
(the source instead matches greedily from the first opening to the
last closing brace; this definition exists to compare the two). -/
def firstBalancedSubstr (s : String) : Option String :=
  (firstBalanced s.data).map (fun l => ⟨l⟩)

/-- Retry loop of `OllamaClient._make_request`: one service attempt
per loop iteration while `retries < max_retries`, then a
`ConnectionError`.  The oracle maps the attempt number to `none`
(transport failure, i.e. `RequestException`) or a parsed response
body.  The second component counts service attempts made, so that
the retry property can speak about the number of calls. -/
def makeRequestLoop (attempts : Nat → Option Json) (maxRetries : Nat) :
    Nat → Nat → Except String Json × Nat
  | retries, made =>
    if _h : retries < maxRetries then
      match attempts retries with
      | some j => (.ok j, made + 1)
      | none => makeRequestLoop attempts maxRetries (retries + 1) (made + 1)
    else
      (.error ("Impossible de se connecter à l\x27API Ollama après " ++
               toString maxRetries ++ " tentatives"), made)
termination_by retries _ => maxRetries - retries

/-- Embedding of `OllamaClient._make_request` with its attempt count. -/
def makeRequest (attempts : Nat → Option Json) (maxRetries : Nat) :
    Except String Json × Nat :=
  makeRequestLoop attempts maxRetries 0 0

/-- Embedding of `config.MAX_RETRIES`. -/
def MAX_RETRIES : Nat := 3

/-- Embedding of `config.DEFAULT_TASK_TIMEOUT`. -/
def DEFAULT_TASK_TIMEOUT : Int := 300

/-- Embedding of `OllamaClient.generate`: one `_make_request` with the default
retry budget, then the `response` field of the body (defaulting to
the empty string); a `ConnectionError` propagates to the caller. -/
def generate (attempts : Nat → Option Json) : Except String Json := do
  let j ← (makeRequest attempts MAX_RETRIES).1
  match j with
  | .obj es => return pyGetD es "response" (Json.str "")
  | _ => Except.error "AttributeError: response body has no attribute get"

/-- Embedding of `MANAGER_TEMPLATES["task_analysis"]` filled by `str.format`. -/
def taskAnalysisTemplate (task : String) : String :=
  "\n    En tant que manager technique, analysez la tâche suivante et décomposez-la en sous-tâches :\n    \n    TÂCHE : " ++ task ++ "\n    \n    1. Analysez les exigences principales\n    2. Identifiez les composants clés nécessaires\n    3. Répartissez le travail entre les développeurs frontend et backend\n    4. Définissez les interfaces entre les composants\n    5. Établissez les critères de succès pour chaque sous-tâche\n    "

/-- The inline extraction prompt of `analyze_task`. -/
def extractionPromptText (task : String) : String :=
  "\n        À partir de votre analyse précédente de la tâche : \"" ++ task ++ "\", veuillez extraire :\n        \n        1. Une liste de tâches spécifiques pour le développeur frontend (3-5 tâches).\n        2. Une liste de tâches spécifiques pour le développeur backend (3-5 tâches).\n        3. Les points d\x27intégration critiques entre le frontend et le backend.\n        \n        Formatez votre réponse en JSON strict avec les clés \x27frontend_tasks\x27, \x27backend_tasks\x27, et \x27integration_points\x27.\n        Si la tâche est trop simple pour être décomposée, retournez des listes vides.\n        "

/-- Embedding of `MANAGER_TEMPLATES["task_assignment"]` filled by `str.format`. -/
def taskAssignmentTemplate (developerName projectContext specificTask constraints interfaces successCriteria : String) : String :=
  "\n    Assignation de tâche à " ++ developerName ++ " :\n    \n    CONTEXTE DU PROJET : " ++ projectContext ++ "\n    \n    VOTRE TÂCHE : " ++ specificTask ++ "\n    \n    ATTENTES :\n    - Fournir une solution fonctionnelle pour la tâche assignée\n    - Documenter votre approche et les décisions techniques\n    - Identifier les potentielles améliorations futures\n    \n    CONTRAINTES :\n    " ++ constraints ++ "\n    \n    INTERFACES AVEC D\x27AUTRES COMPOSANTS :\n    " ++ interfaces ++ "\n    \n    CRITÈRES DE SUCCÈS :\n    " ++ successCriteria ++ "\n    "

/-- Embedding of `MANAGER_TEMPLATES["review_work"]` filled by `str.format`. -/
def reviewWorkTemplate (developerName originalTask submittedSolution : String) : String :=
  "\n    Révision du travail soumis par " ++ developerName ++ " :\n    \n    TÂCHE ORIGINALE : " ++ originalTask ++ "\n    \n    SOLUTION SOUMISE :\n    " ++ submittedSolution ++ "\n    \n    Évaluez cette solution selon les critères suivants :\n    1. Fonctionnalité - La solution répond-elle aux exigences ?\n    2. Qualité - Le code/la solution est-il/elle bien conçu(e) et maintenable ?\n    3. Intégration - Comment cette solution s\x27intègre-t-elle avec les autres composants ?\n    4. Améliorations - Quelles améliorations suggéreriez-vous ?\n    "

/-- Embedding of `MANAGER_TEMPLATES["integration"]` filled by `str.format`. -/
def integrationTemplate (task frontendSolution backendSolution : String) : String :=
  "\n    Intégration des composants pour la tâche : " ++ task ++ "\n    \n    COMPOSANT FRONTEND :\n    " ++ frontendSolution ++ "\n    \n    COMPOSANT BACKEND :\n    " ++ backendSolution ++ "\n    \n    Réalisez l\x27intégration des composants en considérant :\n    1. La cohérence des interfaces\n    2. La compatibilité des données échangées\n    3. Les flux de communication entre composants\n    4. Les potentiels problèmes d\x27intégration et leurs solutions\n    "

/-- The inline complete-solution prompt of `integrate_solutions`. -/
def completeSolutionPrompt (task : String) : String :=
  "\n            Créez une solution complète pour la tâche suivante :\n            \n            " ++ task ++ "\n            \n            Incluez à la fois les aspects frontend et backend dans votre solution.\n            "

/-- The inline direct prompt of `solve_task` when no sub-tasks exist. -/
def directPromptText (taskDescription : String) : String :=
  "\n                Aucune sous-tâche n\x27a été identifiée pour cette tâche. \n                Veuillez fournir une solution complète pour la tâche suivante:\n                \n                " ++ taskDescription ++ "\n                \n                Incluez à la fois les aspects frontend et backend dans votre solution. \n                Fournissez du code exemplaire et des explications détaillées.\n                "

/-- Embedding of `FRONTEND_TEMPLATES["ui_design"]` filled by `str.format`. -/
def uiDesignTemplate (feature ctx targetUsers requiredFeatures : String) : String :=
  "\n    Concevez une interface utilisateur pour : " ++ feature ++ "\n    \n    CONTEXTE :\n    " ++ ctx ++ "\n    \n    UTILISATEURS CIBLES :\n    " ++ targetUsers ++ "\n    \n    FONCTIONNALITÉS REQUISES :\n    " ++ requiredFeatures ++ "\n    \n    Fournissez :\n    1. Une description de l\x27interface et de sa structure\n    2. Les composants UI nécessaires\n    3. Les interactions utilisateur principales\n    4. Les considérations d\x27expérience utilisateur\n    "

/-- Embedding of `FRONTEND_TEMPLATES["component_implementation"]` filled by `str.format`. -/
def componentImplementationTemplate (componentName specifications backendIntegration recommendedTechnologies : String) : String :=
  "\n    Implémentez un composant frontend pour : " ++ componentName ++ "\n    \n    SPÉCIFICATIONS :\n    " ++ specifications ++ "\n    \n    INTÉGRATION AVEC BACKEND :\n    " ++ backendIntegration ++ "\n    \n    TECHNOLOGIES RECOMMANDÉES :\n    " ++ recommendedTechnologies ++ "\n    \n    Fournissez :\n    1. Le code du composant\n    2. Les explications des choix d\x27implémentation\n    3. Les instructions d\x27utilisation\n    4. Les tests suggérés\n    "

/-- Embedding of `BACKEND_TEMPLATES["architecture_design"]` filled by `str.format`. -/
def architectureDesignTemplate (feature ctx functionalRequirements nonFunctionalRequirements : String) : String :=
  "\n    Concevez une architecture backend pour : " ++ feature ++ "\n    \n    CONTEXTE :\n    " ++ ctx ++ "\n    \n    EXIGENCES FONCTIONNELLES :\n    " ++ functionalRequirements ++ "\n    \n    EXIGENCES NON-FONCTIONNELLES :\n    " ++ nonFunctionalRequirements ++ "\n    \n    Fournissez :\n    1. Un schéma de l\x27architecture proposée\n    2. Les composants backend principaux\n    3. Les flux de données\n    4. Les technologies recommandées\n    5. Les considérations de sécurité et performance\n    "

/-- Embedding of `BACKEND_TEMPLATES["api_implementation"]` filled by `str.format`. -/
def apiImplementationTemplate (apiName requiredEndpoints dataModel constraints : String) : String :=
  "\n    Implémentez une API pour : " ++ apiName ++ "\n    \n    ENDPOINTS REQUIS :\n    " ++ requiredEndpoints ++ "\n    \n    MODÈLE DE DONNÉES :\n    " ++ dataModel ++ "\n    \n    CONTRAINTES :\n    " ++ constraints ++ "\n    \n    Fournissez :\n    1. La définition des routes/endpoints\n    2. Les structures de données d\x27entrée/sortie (schémas)\n    3. La logique métier principale\n    4. Les considérations de sécurité et validation\n    5. Les exemples d\x27utilisation\n    "

/-- The backend classification prompt of `BackendDevAgent.execute_task`. -/
def backendClassifyPrompt (assignment : String) : String :=
  "\n        Analysez cette tâche et déterminez s\x27il s\x27agit principalement de:\n        1. Conception d\x27architecture backend\n        2. Implémentation d\x27API ou de composants spécifiques\n        3. Les deux\n        \n        TÂCHE:\n        " ++ assignment ++ "\n        \n        Répondez uniquement par un chiffre : 1, 2 ou 3.\n        "

/-- The backend requirements-extraction prompt. -/
def backendReqPrompt (assignment : String) : String :=
  "\n            À partir de la tâche suivante, extrayez les exigences fonctionnelles et non-fonctionnelles :\n            \n            " ++ assignment ++ "\n            \n            Formatez votre réponse en deux sections clairement séparées :\n            \n            EXIGENCES FONCTIONNELLES:\n            - (liste des exigences)\n            \n            EXIGENCES NON-FONCTIONNELLES:\n            - (liste des exigences)\n            "

/-- The backend endpoints-extraction prompt. -/
def backendApiPrompt (assignment : String) : String :=
  "\n            À partir de la tâche suivante, extrayez les endpoints requis et le modèle de données :\n            \n            " ++ assignment ++ "\n            \n            Formatez votre réponse en deux sections :\n            \n            ENDPOINTS:\n            - (liste des endpoints)\n            \n            MODÈLE DE DONNÉES:\n            (description du modèle)\n            "

/-- The backend mixed-task prompt. -/
def backendMixedPrompt (assignment : String) : String :=
  "\n            En tant que développeur backend, complétez la tâche suivante avec tous les détails nécessaires:\n            \n            " ++ assignment ++ "\n            \n            Fournissez une solution complète qui inclut :\n            1. La conception de l\x27architecture backend si nécessaire\n            2. L\x27implémentation technique avec le code nécessaire\n            3. Les explications de vos choix d\x27architecture et d\x27implémentation\n            4. Les interfaces d\x27intégration avec le frontend\n            "

/-- The frontend classification prompt of `FrontendDevAgent.execute_task`. -/
def frontendClassifyPrompt (assignment : String) : String :=
  "\n        Analysez cette tâche et déterminez s\x27il s\x27agit principalement de:\n        1. Conception d\x27interface utilisateur (UI/UX design)\n        2. Implémentation d\x27un composant ou d\x27une fonctionnalité spécifique\n        3. Les deux\n        \n        TÂCHE:\n        " ++ assignment ++ "\n        \n        Répondez uniquement par un chiffre : 1, 2 ou 3.\n        "

/-- The frontend mixed-task prompt. -/
def frontendMixedPrompt (assignment : String) : String :=
  "En tant que développeur frontend, complétez la tâche suivante avec tous les détails nécessaires:\n            \n            " ++ assignment ++ "\n            \n            Fournissez une solution complète qui inclut :\n            1. La conception de l\x27interface utilisateur\n            2. L\x27implémentation technique avec le code nécessaire\n            3. Les explications de vos choix de design et d\x27implémentation\n            4. Les instructions d\x27intégration avec le backend\n            "

/-- The environment a pipeline run observes: the completion service
(per call index and full prompt; `none` is a transport failure that
exhausts `_make_request`), the timestamps read by `_prepare_context`
(per call index), the wall clock read by `solve_task` (per read
index), and the short random agent identifiers. -/
structure Env where
  llm : Nat → String → Option String
  ts : Nat → String
  clock : Nat → Int
  managerId : String
  frontendId : String
  backendId : String

/-- Agent identity (`name`, `role`, `id`) merged into every context
envelope. -/
structure AgentId where
  name : String
  role : String
  id : String

/-- The manager agent of a team (`config.AGENTS["manager"]`). -/
def managerAgent (env : Env) : AgentId := ⟨"Manager", "manager", env.managerId⟩

/-- The frontend worker agent. -/
def frontendAgent (env : Env) : AgentId := ⟨"Développeur Frontend", "frontend_dev", env.frontendId⟩

/-- The backend worker agent. -/
def backendAgent (env : Env) : AgentId := ⟨"Développeur Backend", "backend_dev", env.backendId⟩

/-- Embedding of `Agent._prepare_context`: agent identity and timestamp, then the
supplied context merged on top. -/
def prepareContext (agent : AgentId) (tstamp : String) (ctx : Option (List (String × Json))) :
    List (String × Json) :=
  let base : List (String × Json) :=
    [("agent", Json.obj [("name", Json.str agent.name), ("role", Json.str agent.role),
                         ("id", Json.str agent.id)]),
     ("timestamp", Json.str tstamp)]
  match ctx with
  | some c => pyDictUpdate base c
  | none => base

/-- Embedding of `Agent._build_prompt`: the message followed by the serialized
context envelope. -/
def buildPrompt (message : String) (ctx : List (String × Json)) : String :=
  message ++ "\n\nCONTEXTE:\n" ++ jsonDumps (Json.obj ctx)

/-- Embedding of `Agent.process` down to the service call: build the envelope and
prompt, consume one call index.  The first component is the raw
service outcome (`none` models the `ConnectionError` raised once
`_make_request` exhausts its retries); history bookkeeping has no
observable effect on any claim and is not modelled. -/
def processR (env : Env) (n : Nat) (agent : AgentId) (message : String)
    (ctx : Option (List (String × Json))) : Option String × Nat :=
  let full := prepareContext agent (env.ts n) ctx
  let prompt := buildPrompt message full
  (env.llm n prompt, n + 1)

/-- The `str(e)` of the `ConnectionError` raised by `_make_request`
with the default retry budget. -/
def connectionErrorMsg : String :=
  "Impossible de se connecter à l\x27API Ollama après 3 tentatives"

/-- Embedding of `Agent.process` in the raising view used by the pipeline. -/
def processE (env : Env) (n : Nat) (agent : AgentId) (message : String)
    (ctx : Option (List (String × Json))) : Except String (String × Nat) :=
  match processR env n agent message ctx with
  | (some r, n1) => .ok (r, n1)
  | (none, _) => .error connectionErrorMsg

/-- A chat message is a Python dict; extra keys are allowed. -/
def roleIsUser (m : List (String × Json)) : Bool :=
  match objLookup "role" m with
  | some (.str r) => r = "user"
  | _ => false

/-- In-place update of one dict entry (`messages[i]["content"] = ...`):
an existing key keeps its position. -/
def pyDictSet (m : List (String × Json)) (k : String) (v : Json) : List (String × Json) :=
  objInsert k v m

/-- The serialized context suffix appended by `Agent.chat`. -/
def chatContextStr (agent : AgentId) (tstamp : String) (ctx : Option (List (String × Json))) :
    String :=
  "\n\nCONTEXTE:\n" ++ jsonDumps (Json.obj (prepareContext agent tstamp ctx))

/-- The first-user-entry mutation loop of `Agent.chat`: find the first
entry whose role is `user` and append the context string to its
content.  Returns the messages as the caller sees them afterwards and
`none` when reading the content raised (`KeyError` on a missing key,
`TypeError` on a non-string), in which case no entry was changed. -/
def chatMutate (ctxStr : String) : List (List (String × Json)) →
    List (List (String × Json)) × Option String
  | [] => ([], none)
  | m :: rest =>
    if roleIsUser m then
      match objLookup "content" m with
      | some (.str s) =>
        (pyDictSet m "content" (Json.str (s ++ ctxStr)) :: rest, none)
      | some _ => (m :: rest, some "TypeError: can only concatenate str")
      | none => (m :: rest, some "KeyError: content")
    else
      let (rest1, err) := chatMutate ctxStr rest
      (m :: rest1, err)

/-- Embedding of `Agent.chat`: prepare the envelope, mutate the first user entry,
call the service, then read the last message content for history.
Returns the caller-visible messages list together with the outcome. -/
def chatRun (env : Env) (n : Nat) (agent : AgentId)
    (messages : List (List (String × Json))) (ctx : Option (List (String × Json))) :
    List (List (String × Json)) × Except String (String × Nat) :=
  let ctxStr := chatContextStr agent (env.ts n) ctx
  let mutated :=
    if messages.isEmpty then (messages, none) else chatMutate ctxStr messages
  let messages1 := mutated.1
  let outcome : Except String (String × Nat) :=
    match mutated.2 with
    | some e => .error e
    | none =>
      match env.llm n "chat" with
      | none => .error connectionErrorMsg
      | some r =>
        match messages1.getLast? with
        | none => .ok (r, n + 1)
        | some last =>
          match objLookup "content" last with
          | some _ => .ok (r, n + 1)
          | none => .error "KeyError: content"
  (messages1, outcome)

/-- Embedding of `config.AGENTS[role]["name"]`; an unknown role raises `KeyError`. -/
def agentNameE (role : String) : Except String String :=
  if role = "manager" then .ok "Manager"
  else if role = "frontend_dev" then .ok "Développeur Frontend"
  else if role = "backend_dev" then .ok "Développeur Backend"
  else .error ("KeyError: " ++ role)

/-- Embedding of `ManagerAgent.analyze_task`: issue the decomposition prompt, then
the extraction prompt inside a `try` whose handler (like any other
failure of the parsing section) leaves all three lists empty; the
result dict carries the original task, the analysis text and the
three extracted fields. -/
def analyzeTaskM (env : Env) (n : Nat) (task : String) :
    Except String (List (String × Json) × Nat) := do
  let (analysis, n1) ← processE env n (managerAgent env)
      (taskAnalysisTemplate task) (some [("task", Json.str task)])
  let (fbi, n2) :=
    match processR env n1 (managerAgent env)
        (extractionPromptText task) (some [("task", Json.str task)]) with
    | (none, n2) => ((Json.arr [], Json.arr [], Json.arr []), n2)
    | (some ext, n2) => (parseExtraction ext, n2)
  return ([("original_task", Json.str task), ("analysis", Json.str analysis),
           ("frontend_tasks", fbi.1), ("backend_tasks", fbi.2.1),
           ("integration_points", fbi.2.2)], n2)

/-- The constant parts of an assignment context. -/
def constraintsText : String :=
  "Utiliser les technologies standards et maintenir la cohérence avec les autres composants."

/-- The fixed success-criteria text. -/
def successCriteriaText : String :=
  "Solution fonctionnelle, bien documentée et maintenable."

/-- Embedding of `ManagerAgent.create_task_assignment`: select the task list for
the role, validate the index (returning the explicit invalid-index
dict, not an exception), then render the assignment prompt.  The
function performs no completion-service call, which the embedding
reflects by not taking the environment. -/
def createTaskAssignment (taskData : List (String × Json)) (role : String) (idx : Int) :
    Except String (List (String × Json)) := do
  let key := pyReplace role "_dev" "" ++ "_tasks"
  let taskList := pyGetD taskData key (Json.arr [])
  let len ← pyLenE taskList
  if idx < 0 ∨ len ≤ idx then
    return [("error", Json.str "Index de tâche invalide")]
  else
    let specific ← pyIndexE taskList idx
    let devName ← agentNameE role
    let origTask ← (match objLookup "original_task" taskData with
                    | some v => Except.ok v
                    | none => Except.error "KeyError: original_task")
    let interfaces ← pyJoinValsE "\n" (pyGetD taskData "integration_points" (Json.arr []))
    let context : List (String × Json) :=
      [("project_context", origTask), ("specific_task", specific),
       ("constraints", Json.str constraintsText), ("interfaces", Json.str interfaces),
       ("success_criteria", Json.str successCriteriaText)]
    let assignment := taskAssignmentTemplate devName (pyStr origTask) (pyStr specific)
        constraintsText interfaces successCriteriaText
    return [("assignment", Json.str assignment), ("context", Json.obj context),
            ("developer_role", Json.str role), ("task_index", Json.num idx)]

/-- A review as structured by `ManagerAgent.review_work`. -/
structure ReviewRec where
  developer_role : String
  developer_name : String
  original_task : Json
  evaluation : String
  approved : Bool

/-- Embedding of `ManagerAgent._evaluate_approval`: the constant-true stub. -/
def evaluateApproval (_evaluation : String) : Bool := true

/-- Embedding of `ManagerAgent.review_work`: one review prompt, then the structured
result with the stubbed approval. -/
def reviewWork (env : Env) (n : Nat) (taskData : List (String × Json)) (role : String)
    (solution : String) : Except String (ReviewRec × Nat) := do
  let devName ← agentNameE role
  let origTask := pyGetD taskData "original_task" (Json.str "")
  let prompt := reviewWorkTemplate devName (pyStr origTask) solution
  let (evaluation, n1) ← processE env n (managerAgent env) prompt
      (some [("task_data", Json.obj taskData), ("developer_role", Json.str role)])
  return (⟨role, devName, origTask, evaluation, evaluateApproval evaluation⟩, n1)

/-- Embedding of `ManagerAgent.integrate_solutions`: with two empty solutions ask
for a complete solution directly; otherwise substitute the
placeholder for an empty side and issue the integration prompt. -/
def integrateSolutionsM (env : Env) (n : Nat) (taskData : List (String × Json))
    (frontendSolution backendSolution : String) : Except String (String × Nat) :=
  if frontendSolution = "" ∧ backendSolution = "" then
    processE env n (managerAgent env)
      (completeSolutionPrompt (pyStr (pyGetD taskData "original_task" (Json.str ""))))
      (some [("task_data", Json.obj taskData)])
  else
    let fs := if frontendSolution = "" then "Aucune solution frontend disponible."
              else frontendSolution
    let bs := if backendSolution = "" then "Aucune solution backend disponible."
              else backendSolution
    let prompt := integrationTemplate (pyStr (pyGetD taskData "original_task" (Json.str "")))
        fs bs
    processE env n (managerAgent env) prompt (some [("task_data", Json.obj taskData)])

/-- Worker fulfillment strategies. -/
inductive WBranch where
  | design
  | impl
  | mixed
deriving DecidableEq

/-- Branch selection of `BackendDevAgent.execute_task` over the
stripped classification response: the `if`/`elif` chain tests, in
order, digit `1` or keyword `architecture`, then digit `2` or
keywords `api`/`implémentation`, else the mixed path. -/
def backendChooseBranch (t : String) : WBranch :=
  if sContains "1" t || sContains "architecture" (pyLower t) then .design
  else if sContains "2" t || sContains "api" (pyLower t) ||
          sContains "implémentation" (pyLower t) then .impl
  else .mixed

/-- Branch selection of `FrontendDevAgent.execute_task`: digit `1` or
keyword `conception`, then digit `2` or keyword `implémentation`,
else mixed. -/
def frontendChooseBranch (t : String) : WBranch :=
  if sContains "1" t || sContains "conception" (pyLower t) then .design
  else if sContains "2" t || sContains "implémentation" (pyLower t) then .impl
  else .mixed

/-- The requirements split of the backend design path
(lines 150-158 of the backend worker): splitting on the two section
markers, with the `IndexError` the subscript `[1]` raises when the
functional marker only occurs after the non-functional one. -/
def backendReqSplit (requirements : String) : Except String (String × String) :=
  if sContains "EXIGENCES FONCTIONNELLES" requirements then
    let parts := pySplit1 "EXIGENCES NON-FONCTIONNELLES" requirements
    match pySplit1 "EXIGENCES FONCTIONNELLES" (parts.headD "") with
    | [_, after] =>
      let nonFunc := match parts with
                     | [_, p1] => pyStrip p1
                     | _ => ""
      .ok (pyStrip after, nonFunc)
    | _ => .error "IndexError: list index out of range"
  else .ok ("", "")

/-- The fixed default CRUD-style endpoints of the backend worker. -/
def defaultEndpoints : List String :=
  ["GET /api/\x7bresource\x7d", "POST /api/\x7bresource\x7d",
   "PUT /api/\x7bresource\x7d/\x7bid\x7d", "DELETE /api/\x7bresource\x7d/\x7bid\x7d"]

/-- The default data-model text of the backend worker. -/
def defaultDataModel : String := "Modèle de données dérivé des exigences de la tâche."

/-- The endpoint/data-model extraction of the backend implementation
path (lines 187-207): section split, bullet pattern match, and the
documented defaults; the subscript `[1]` raises `IndexError` when
`ENDPOINTS` only occurs after `MODÈLE DE DONNÉES`. -/
def backendApiExtraction (apiDetails : String) : Except String (List String × String) :=
  if sContains "ENDPOINTS" apiDetails then
    let parts := pySplit1 "MODÈLE DE DONNÉES" apiDetails
    match pySplit1 "ENDPOINTS" (parts.headD "") with
    | [_, after] =>
      let endpointsText := pyStrip after
      let endpoints := bulletFindAll endpointsText
      let dataModel := match parts with
                       | [_, p1] => pyStrip p1
                       | _ => ""
      .ok (if endpoints.isEmpty then defaultEndpoints else endpoints,
           if dataModel = "" then defaultDataModel else dataModel)
    | _ => .error "IndexError: list index out of range"
  else .ok (defaultEndpoints, defaultDataModel)

/-- Embedding of `value.split(":")[0] if ":" in value else dflt`, with the Python
faults of applying it to non-strings. -/
def colonPrefixName (dflt : String) (v : Json) : Except String String :=
  match pyMembership ":" v with
  | none => .error "TypeError: argument is not iterable"
  | some true =>
    match v with
    | .str s => .ok ((pySplit1 ":" s).headD "")
    | _ => .error "AttributeError: split"
  | some false => .ok dflt

/-- Embedding of `BackendDevAgent.execute_task`: classify, then run the selected
fulfillment path (architecture design, API implementation, or the
mixed direct prompt). -/
def backendExecuteTask (env : Env) (n : Nat) (taskAssignment : List (String × Json)) :
    Except String (String × Nat) := do
  let assignment := pyStr (pyGetD taskAssignment "assignment" (Json.str ""))
  let ctxJ := pyGetD taskAssignment "context" (Json.obj [])
  let ctxEs ← (match ctxJ with
               | Json.obj es => Except.ok es
               | _ => Except.error "AttributeError: get")
  let (ttRaw, n1) ← processE env n (backendAgent env) (backendClassifyPrompt assignment)
      (some [("assignment", Json.str assignment)])
  let tt := pyStrip ttRaw
  match backendChooseBranch tt with
  | .design =>
    let feature := pyGetD ctxEs "specific_task" (Json.str "")
    let (reqs, n2) ← processE env n1 (backendAgent env) (backendReqPrompt assignment)
        (some [("assignment", Json.str assignment)])
    let (funcReqs, nonFuncReqs) ← backendReqSplit reqs
    let funcReqs1 := if funcReqs = "" then "Exigences extraites de la tâche" else funcReqs
    let nonFuncReqs1 := if nonFuncReqs = "" then "Performance, sécurité et maintenabilité"
                        else nonFuncReqs
    let ctx2 := objInsert "non_functional_requirements" (Json.str nonFuncReqs1)
        (objInsert "functional_requirements" (Json.str funcReqs1) ctxEs)
    let prompt := architectureDesignTemplate (pyStr feature)
        (pyStr (pyGetD ctx2 "project_context" (Json.str "")))
        (pyStr (pyGetD ctx2 "functional_requirements" (Json.str "Exigences fonctionnelles de base")))
        (pyStr (pyGetD ctx2 "non_functional_requirements"
          (Json.str "Performance, sécurité et maintenabilité")))
    processE env n2 (backendAgent env) prompt (some ctx2)
  | .impl =>
    let apiName ← colonPrefixName "API" (pyGetD ctxEs "specific_task" (Json.str ""))
    let (apiDetails, n2) ← processE env n1 (backendAgent env) (backendApiPrompt assignment)
        (some [("assignment", Json.str assignment)])
    let (endpoints, dataModel) ← backendApiExtraction apiDetails
    let constraints := match objLookup "constraints" ctxEs with
                       | none => "Respecter les standards REST, assurer la sécurité et optimiser les performances."
                       | some v => pyStr v
    let endpointsStr := pyJoin "\n" (endpoints.map (fun e => "- " ++ e))
    let prompt := apiImplementationTemplate apiName endpointsStr dataModel constraints
    let ctx2 : List (String × Json) :=
      [("api_name", Json.str apiName),
       ("required_endpoints", Json.arr (endpoints.map Json.str)),
       ("data_model", Json.str dataModel), ("constraints", Json.str constraints)]
    processE env n2 (backendAgent env) prompt (some ctx2)
  | .mixed =>
    processE env n1 (backendAgent env) (backendMixedPrompt assignment) (some ctxEs)

/-- Embedding of `FrontendDevAgent.execute_task`: classify, then run the selected
fulfillment path (UI design, component implementation, or the mixed
direct prompt). -/
def frontendExecuteTask (env : Env) (n : Nat) (taskAssignment : List (String × Json)) :
    Except String (String × Nat) := do
  let assignment := pyStr (pyGetD taskAssignment "assignment" (Json.str ""))
  let ctxJ := pyGetD taskAssignment "context" (Json.obj [])
  let ctxEs ← (match ctxJ with
               | Json.obj es => Except.ok es
               | _ => Except.error "AttributeError: get")
  let (ttRaw, n1) ← processE env n (frontendAgent env) (frontendClassifyPrompt assignment)
      (some [("assignment", Json.str assignment)])
  let tt := pyStrip ttRaw
  match frontendChooseBranch tt with
  | .design =>
    let feature := pyGetD ctxEs "specific_task" (Json.str "")
    let targetUsers := pyGetD ctxEs "target_users" (Json.str "Utilisateurs généraux de l\x27application")
    let requiredFeatures := pyGetD ctxEs "required_features" (Json.str "Fonctionnalités de base nécessaires")
    let prompt := uiDesignTemplate (pyStr feature)
        (pyStr (pyGetD ctxEs "project_context" (Json.str "")))
        (pyStr targetUsers) (pyStr requiredFeatures)
    processE env n1 (frontendAgent env) prompt (some ctxEs)
  | .impl =>
    let componentName ← colonPrefixName "Composant" (pyGetD ctxEs "specific_task" (Json.str ""))
    let specifications := pyGetD ctxEs "specific_task" (Json.str "")
    let backendIntegration := pyGetD ctxEs "interfaces" (Json.str "")
    let recommendedTechnologies :=
      "HTML, CSS, JavaScript, et un framework moderne comme React, Vue ou Angular."
    let prompt := componentImplementationTemplate componentName (pyStr specifications)
        (pyStr backendIntegration) recommendedTechnologies
    let ctx2 : List (String × Json) :=
      [("component_name", Json.str componentName), ("specifications", specifications),
       ("backend_integration", backendIntegration),
       ("recommended_technologies", Json.str recommendedTechnologies)]
    processE env n1 (frontendAgent env) prompt (some ctx2)
  | .mixed =>
    processE env n1 (frontendAgent env) (frontendMixedPrompt assignment) (some ctxEs)

/-- One per-sub-task result entry appended by `solve_task`. -/
structure Entry where
  task : Json
  solution : String
  review : ReviewRec
  approved : Bool

/-- The per-run state record `state["tasks"][task_id]` of `AITeam`. -/
structure TaskRecord where
  description : String
  analysis : List (String × Json)
  frontend_results : List Entry
  backend_results : List Entry
  status : String
  start_time : Int
  end_time : Option Int
  duration : Option Int
  final_solution : Option String

/-- Outcome of one specialization loop: the entries appended to the
state record, the service-call and clock counters afterwards, and
the message of the exception that ended the loop early, if any. -/
structure LoopOut where
  entries : List Entry
  n : Nat
  tc : Nat
  err : Option String

/-- The worker dispatched for a specialization. -/
def workerExecute (role : String) :
    Env → Nat → List (String × Json) → Except String (String × Nat) :=
  if role = "frontend_dev" then frontendExecuteTask else backendExecuteTask

/-- One specialization loop of `solve_task`: for each sub-task, check
the elapsed wall clock against the timeout (breaking out once
exceeded), create the assignment, execute it with the worker, review
it, and append the result entry.  Each iteration reads one clock
index; an exception anywhere in the body ends the loop, keeping the
entries collected so far. -/
def runSpecLoop (env : Env) (analysis : List (String × Json)) (role : String)
    (start timeout : Int) : List Json → Int → Nat → Nat → LoopOut
  | [], _, n, tc => ⟨[], n, tc, none⟩
  | task :: rest, idx, n, tc =>
    if env.clock tc - start > timeout then ⟨[], n, tc + 1, none⟩
    else
      match createTaskAssignment analysis role idx with
      | .error e => ⟨[], n, tc + 1, some e⟩
      | .ok ta =>
        match workerExecute role env n ta with
        | .error e => ⟨[], n, tc + 1, some e⟩
        | .ok (sol, n1) =>
          match reviewWork env n1 analysis role sol with
          | .error e => ⟨[], n1, tc + 1, some e⟩
          | .ok (rev, n2) =>
            let entry : Entry := ⟨task, sol, rev, rev.approved⟩
            let out := runSpecLoop env analysis role start timeout rest (idx + 1) n2 (tc + 1)
            ⟨entry :: out.entries, out.n, out.tc, out.err⟩

/-- The integration inputs computed by `solve_task` (lines 150-158):
join the approved solutions of each specialization, falling back to
joining all of its solutions when the approved join is empty. -/
def integrationInputs (fr br : List Entry) : String × String :=
  let fa := pyJoin "\n\n" ((fr.filter (fun e => e.approved)).map (fun e => e.solution))
  let ba := pyJoin "\n\n" ((br.filter (fun e => e.approved)).map (fun e => e.solution))
  (if fa = "" then pyJoin "\n\n" (fr.map (fun e => e.solution)) else fa,
   if ba = "" then pyJoin "\n\n" (br.map (fun e => e.solution)) else ba)

/-- Embedding of `AITeam.solve_task` before the boundary handler: the `Except`
outcome of the `try` body together with the per-run state record as
it stands when the body returns or raises (`none`: the record was
never created because the analysis step itself raised). -/
def solveTaskCore (env : Env) (desc : String) (timeout : Int) :
    Except String String × Option TaskRecord :=
  let start := env.clock 0
  match analyzeTaskM env 0 desc with
  | .error e => (.error e, none)
  | .ok (analysis, n1) =>
    let rec0 : TaskRecord := ⟨desc, analysis, [], [], "analyzed", start, none, none, none⟩
    let ftJ := pyGetD analysis "frontend_tasks" (Json.arr [])
    let btJ := pyGetD analysis "backend_tasks" (Json.arr [])
    match pyIterE ftJ with
    | .error e => (.error e, some rec0)
    | .ok fts =>
      let fout := runSpecLoop env analysis "frontend_dev" start timeout fts 0 n1 1
      let recF := { rec0 with frontend_results := fout.entries }
      match fout.err with
      | some e => (.error e, some recF)
      | none =>
        match pyIterE btJ with
        | .error e => (.error e, some recF)
        | .ok bts =>
          let bout := runSpecLoop env analysis "backend_dev" start timeout bts 0 fout.n fout.tc
          let rec1 := { recF with backend_results := bout.entries }
          match bout.err with
          | some e => (.error e, some rec1)
          | none =>
            let finE :=
              if ¬ pyTruthy ftJ ∧ ¬ pyTruthy btJ then
                processE env bout.n (managerAgent env) (directPromptText desc)
                  (some [("task", Json.str desc)])
              else
                let (fs, bs) := integrationInputs fout.entries bout.entries
                integrateSolutionsM env bout.n analysis fs bs
            match finE with
            | .error e => (.error e, some rec1)
            | .ok (sol, _) =>
              let dur := env.clock bout.tc - start
              let endT := env.clock (bout.tc + 1)
              (.ok sol,
               some { rec1 with
                        status := "completed",
                        end_time := some endT,
                        duration := some dur,
                        final_solution := some sol })

/-- The formatted error report returned by the boundary handler of
`solve_task`, with `str(e)` interpolated. -/
def errReport (msg : String) : String :=
  "\n            ERREUR LORS DE LA RÉSOLUTION DE LA TÂCHE\n            \n            Erreur lors de la résolution de la tâche: " ++ msg ++
  "\n            \n            Veuillez vérifier les journaux pour plus de détails.\n            "

/-- Embedding of `AITeam.solve_task` as the caller sees it: the returned string
(the solution, or the error report when the body raised) paired with
the per-run state record. -/
def solveTaskFull (env : Env) (desc : String) (timeout : Int) :
    String × Option TaskRecord :=
  match solveTaskCore env desc timeout with
  | (.ok sol, rec1) => (sol, rec1)
  | (.error e, rec1) => (errReport e, rec1)

section Lemmas

/-- A list is a prefix of itself extended by anything. -/
theorem chPrefix_append_self (x y : List Char) : chPfx x (x ++ y) = true := by
  induction x with
  | nil => rfl
  | cons c t ih => simp [chPfx, ih]

/-- The empty needle is contained in every haystack. -/
theorem chContains_nil (hay : List Char) : chContains [] hay = true := by
  cases hay <;> simp [chContains, chPfx, List.isEmpty]

/-- A list is contained in itself followed by anything. -/
theorem chContains_self_app (x b : List Char) : chContains x (x ++ b) = true := by
  cases x with
  | nil => exact chContains_nil b
  | cons c t =>
    simp only [chContains, Bool.or_eq_true]
    exact Or.inl (by simpa using chPrefix_append_self (c :: t) b)

/-- Substring containment is stable under prepending. -/
theorem chContains_append_left (x t a : List Char) (h : chContains x t = true) :
    chContains x (a ++ t) = true := by
  induction a with
  | nil => simpa using h
  | cons c r ih =>
    simp only [List.cons_append, chContains, Bool.or_eq_true]
    exact Or.inr ih

/-- A list surrounded by arbitrary context is contained as a substring. -/
theorem chContains_embed (x a b : List Char) : chContains x (a ++ (x ++ b)) = true :=
  chContains_append_left x (x ++ b) a (chContains_self_app x b)

/-- String-level version of `chContains_embed`. -/
theorem sContains_embed (x a b : String) : sContains x (a ++ x ++ b) = true := by
  have hd : (a ++ x ++ b).data = a.data ++ (x.data ++ b.data) := by
    simp [String.data_append, List.append_assoc]
  simp only [sContains, hd]
  exact chContains_embed x.data a.data b.data

/-- An element of a list is contained in any separator join of it. -/
theorem sContains_join (sep : String) (x : String) (xs : List String) (h : x ∈ xs) :
    sContains x (pyJoin sep xs) = true := by
  induction xs with
  | nil => cases h
  | cons y t ih =>
    cases h with
    | head =>
      cases t with
      | nil =>
        simp only [pyJoin, sContains]
        have := chContains_self_app x.data []
        simpa using this
      | cons z u =>
        simp only [pyJoin, sContains, String.data_append, List.append_assoc]
        exact chContains_self_app x.data _
    | tail _ hmem =>
      cases t with
      | nil => cases hmem
      | cons z u =>
        have hin := ih hmem
        simp only [pyJoin, sContains, String.data_append, List.append_assoc] at hin ⊢
        exact chContains_append_left x.data _ y.data
          (chContains_append_left x.data _ sep.data hin)

set_option maxRecDepth 4096 in
/-- The error report is never the empty string. -/
theorem errReport_ne_empty (msg : String) : errReport msg ≠ "" := by
  intro h
  have hlen := congrArg String.length h
  rw [errReport, String.length_append, String.length_append] at hlen
  have h1 : 0 < ("\n            ERREUR LORS DE LA RÉSOLUTION DE LA TÂCHE\n            \n            Erreur lors de la résolution de la tâche: " : String).length := by decide
  have h2 : ("" : String).length = 0 := rfl
  omega

/-- The raised message occurs inside the error report. -/
theorem sContains_errReport (msg : String) : sContains msg (errReport msg) = true := by
  unfold errReport
  exact sContains_embed msg
    "\n            ERREUR LORS DE LA RÉSOLUTION DE LA TÂCHE\n            \n            Erreur lors de la résolution de la tâche: "
    "\n            \n            Veuillez vérifier les journaux pour plus de détails.\n            "

/-- Embedding of `fieldUpdate` on a parsed object returns the present value or the
current default. -/
theorem fieldUpdate_obj (o : List (String × Json)) (k : String) (cur : Json) :
    fieldUpdate (Json.obj o) k cur = some ((objLookup k o).getD cur) := by
  unfold fieldUpdate pyMembership pyGetItemKey
  cases h : objLookup k o <;> simp [h]

/-- Updating one dict key leaves every other key unchanged. -/
theorem objLookup_objInsert_ne (m : List (String × Json)) (k k0 : String) (v : Json)
    (h : k ≠ k0) : objLookup k (objInsert k0 v m) = objLookup k m := by
  induction m with
  | nil =>
    simp only [objInsert, objLookup]
    rw [if_neg (fun hh => h hh.symm)]
  | cons e t ih =>
    rcases e with ⟨ek, ev⟩
    simp only [objInsert]
    by_cases he : ek = k0
    · rw [if_pos he]
      simp only [objLookup]
      have hek : ¬ ek = k := fun hh => h (hh ▸ he)
      rw [if_neg hek, if_neg hek]
    · rw [if_neg he]
      simp only [objLookup]
      by_cases hk : ek = k
      · rw [if_pos hk, if_pos hk]
      · rw [if_neg hk, if_neg hk]
        exact ih

end Lemmas

/-- Claim C5: with `maxRetries = 3`, a completion service whose first
two calls fail at transport level and whose third succeeds makes
`_make_request` return the successful response after exactly three
attempts, without exhausting retries; a service that always fails
makes it raise a `ConnectionError` after exactly three attempts, and
`generate` propagates that error to its caller instead of
swallowing it. -/
theorem C5_retry_policy :
    (∀ (attempts : Nat → Option Json) (r : Json),
        attempts 0 = none → attempts 1 = none → attempts 2 = some r →
        makeRequest attempts 3 = (.ok r, 3)) ∧
    (∀ attempts : Nat → Option Json, (∀ i, attempts i = none) →
        makeRequest attempts 3 = (.error connectionErrorMsg, 3) ∧
        generate attempts = .error connectionErrorMsg) := by
  constructor
  · intro attempts r h0 h1 h2
    simp [makeRequest, makeRequestLoop, h0, h1, h2]
  · intro attempts h
    have hb : makeRequest attempts 3 = (.error connectionErrorMsg, 3) := by
      simp [makeRequest, makeRequestLoop, h, connectionErrorMsg]
      rfl
    refine ⟨hb, ?_⟩
    have hb3 : makeRequest attempts MAX_RETRIES = (.error connectionErrorMsg, 3) := hb
    simp [generate, hb3]
    rfl

/-- Witness for C5 at concrete services. -/
theorem C5_retry_policy_witness :
    makeRequest (fun i => if i < 2 then none else some (Json.obj [("response", Json.str "ok")])) 3 =
      (.ok (Json.obj [("response", Json.str "ok")]), 3) ∧
    makeRequest (fun _ => none) 3 = (.error connectionErrorMsg, 3) ∧
    generate (fun _ => none) = .error connectionErrorMsg :=
  ⟨C5_retry_policy.1 _ _ rfl rfl rfl,
   (C5_retry_policy.2 (fun _ => none) (fun _ => rfl)).1,
   (C5_retry_policy.2 (fun _ => none) (fun _ => rfl)).2⟩

/-- Claim C6: `create_task_assignment` with an index outside
`[0, len(list))` returns the explicit invalid-index dict (an error
value, not an exception), for any analysis whose selected task list
supports `len`; the definition takes no completion-service
environment and dispatches no worker, so no service call can occur. -/
theorem C6_invalid_index (taskData : List (String × Json)) (role : String) (idx L : Int)
    (hlen : pyLenE (pyGetD taskData (pyReplace role "_dev" "" ++ "_tasks") (Json.arr [])) = .ok L)
    (hout : idx < 0 ∨ L ≤ idx) :
    createTaskAssignment taskData role idx = .ok [("error", Json.str "Index de tâche invalide")] := by
  unfold createTaskAssignment
  simp only []
  rw [hlen]
  simp [Except.bind, hout, Bind.bind, pure, Except.pure]

/-- Witness for C6: an empty analysis and index 5 for each
specialization, and a negative index. -/
theorem C6_invalid_index_witness :
    createTaskAssignment [] "frontend_dev" 5 = .ok [("error", Json.str "Index de tâche invalide")] ∧
    createTaskAssignment [("backend_tasks", Json.arr [Json.str "t"])] "backend_dev" (-1) =
      .ok [("error", Json.str "Index de tâche invalide")] :=
  ⟨C6_invalid_index [] "frontend_dev" 5 0 rfl (Or.inr (by decide)),
   C6_invalid_index [("backend_tasks", Json.arr [Json.str "t"])] "backend_dev" (-1) 1 rfl
     (Or.inl (by decide))⟩

/-- Claim C8 (amended): the classification branch is selected by the
first matching test in order — digit `1` or the design keyword, then
digit `2` or the implementation keywords, else mixed — so a digit
takes precedence over the keywords of the same and later tests, but
a keyword of an earlier test overrides a later digit, and digit `3`
reaches the mixed path only when no digit or keyword matched
earlier. -/
theorem C8_branch_selection (t : String) :
    (sContains "1" t = true → backendChooseBranch t = .design) ∧
    (sContains "1" t = false → sContains "architecture" (pyLower t) = false →
      sContains "2" t = true → backendChooseBranch t = .impl) ∧
    (sContains "1" t = false → sContains "architecture" (pyLower t) = false →
      sContains "2" t = false → sContains "api" (pyLower t) = false →
      sContains "implémentation" (pyLower t) = false → backendChooseBranch t = .mixed) ∧
    (sContains "1" t = true → frontendChooseBranch t = .design) ∧
    (sContains "1" t = false → sContains "conception" (pyLower t) = false →
      sContains "2" t = true → frontendChooseBranch t = .impl) ∧
    (sContains "1" t = false → sContains "conception" (pyLower t) = false →
      sContains "2" t = false → sContains "implémentation" (pyLower t) = false →
      frontendChooseBranch t = .mixed) := by
  refine ⟨?_, ?_, ?_, ?_, ?_, ?_⟩ <;> intros <;>
    simp [backendChooseBranch, frontendChooseBranch, *]

/-- Witness for C8 at concrete classification responses. -/
theorem C8_branch_selection_witness :
    backendChooseBranch "1" = .design ∧ backendChooseBranch "2" = .impl ∧
    frontendChooseBranch "2" = .impl :=
  ⟨(C8_branch_selection "1").1 (by decide),
   (C8_branch_selection "2").2.1 (by decide) (by decide) (by decide),
   (C8_branch_selection "2").2.2.2.2.1 (by decide) (by decide) (by decide)⟩

/-- Counterexample to C8 as stated: the stripped response
`architecture 2` contains the digit `2`, yet the keyword
`architecture` of the earlier test selects the design branch, not
the implementation branch named by the digit. -/
theorem C8_keyword_overrides_digit :
    sContains "2" (pyStrip "architecture 2") = true ∧
    backendChooseBranch (pyStrip "architecture 2") = .design ∧
    WBranch.design ≠ WBranch.impl := by
  refine ⟨by decide, by decide, by decide⟩

/-- Claim C9 (amended): the concrete extraction input of the spec
yields exactly the two endpoints and the data-model text `foo`; and
whenever the bullet pattern finds no match the endpoint list falls
back to the fixed default CRUD set — without raising provided the
first `ENDPOINTS` marker is not preceded by the `MODÈLE DE DONNÉES`
marker (the section split raises `IndexError` otherwise, see the
counterexample). -/
theorem C9_endpoint_extraction :
    (backendApiExtraction "ENDPOINTS:\n- GET /x\n- POST /y\nMODÈLE DE DONNÉES\nfoo" =
      .ok (["GET /x", "POST /y"], "foo")) ∧
    (∀ s : String, sContains "ENDPOINTS" s = false →
      backendApiExtraction s = .ok (defaultEndpoints, defaultDataModel)) ∧
    (∀ s p0 after : String, sContains "ENDPOINTS" s = true →
      pySplit1 "ENDPOINTS" ((pySplit1 "MODÈLE DE DONNÉES" s).headD "") = [p0, after] →
      bulletFindAll (pyStrip after) = [] →
      ∃ dm, backendApiExtraction s = .ok (defaultEndpoints, dm)) := by
  refine ⟨by rfl, ?_, ?_⟩
  · intro s h
    simp [backendApiExtraction, h]
  · intro s p0 after h hsplit hbullets
    refine ⟨if (match pySplit1 "MODÈLE DE DONNÉES" s with
                | [_, p1] => pyStrip p1
                | _ => "") = "" then defaultDataModel
            else (match pySplit1 "MODÈLE DE DONNÉES" s with
                  | [_, p1] => pyStrip p1
                  | _ => ""), ?_⟩
    simp only [List.headD_eq_head?_getD] at hsplit
    simp [backendApiExtraction, h, hsplit, hbullets]

/-- Witness for C9 at a bullet-free input whose `ENDPOINTS` marker
comes first. -/
theorem C9_endpoint_extraction_witness :
    backendApiExtraction "ENDPOINTS:\n- GET /x\n- POST /y\nMODÈLE DE DONNÉES\nfoo" =
      .ok (["GET /x", "POST /y"], "foo") ∧
    backendApiExtraction "rien" = .ok (defaultEndpoints, defaultDataModel) ∧
    (∃ dm, backendApiExtraction "ENDPOINTS: rien" = .ok (defaultEndpoints, dm)) :=
  ⟨C9_endpoint_extraction.1,
   C9_endpoint_extraction.2.1 "rien" (by decide),
   C9_endpoint_extraction.2.2 "ENDPOINTS: rien" "" ": rien" (by decide) (by decide) (by decide)⟩

/-- Counterexample to C9 as stated: an input with no bullet match at
all on which the extraction raises an `IndexError` instead of
falling back to the default endpoints, because `ENDPOINTS` only
occurs after `MODÈLE DE DONNÉES`. -/
theorem C9_section_order_raises :
    bulletFindAll "MODÈLE DE DONNÉES ENDPOINTS" = [] ∧
    backendApiExtraction "MODÈLE DE DONNÉES ENDPOINTS" =
      .error "IndexError: list index out of range" := by
  refine ⟨by decide, by rfl⟩

/-- The mutation loop of `Agent.chat` rewrites exactly the first
user-role entry. -/
theorem chatMutate_spec (ctxStr : String) (pre post : List (List (String × Json)))
    (m : List (String × Json)) (s : String)
    (hpre : ∀ m' ∈ pre, roleIsUser m' = false) (hm : roleIsUser m = true)
    (hc : objLookup "content" m = some (Json.str s)) :
    chatMutate ctxStr (pre ++ m :: post) =
      (pre ++ pyDictSet m "content" (Json.str (s ++ ctxStr)) :: post, none) := by
  induction pre with
  | nil => simp [chatMutate, hm, hc]
  | cons p t ih =>
    have hp := hpre p (List.mem_cons_self p t)
    have iht := ih (fun m' h' => hpre m' (List.mem_cons_of_mem p h'))
    simp [chatMutate, hp, iht]

/-- Claim C10: for a messages list whose first user-role entry has a
string content, `Agent.chat` leaves the caller with the same list
except that this entry's content has the serialized context envelope
appended; every entry before and after it, and every other field of
the entry itself, is unchanged. -/
theorem C10_chat_mutation (env : Env) (n : Nat) (agent : AgentId)
    (ctx : Option (List (String × Json)))
    (pre post : List (List (String × Json))) (m : List (String × Json)) (s : String)
    (hpre : ∀ m' ∈ pre, roleIsUser m' = false) (hm : roleIsUser m = true)
    (hc : objLookup "content" m = some (Json.str s)) :
    (chatRun env n agent (pre ++ m :: post) ctx).1 =
      pre ++ pyDictSet m "content"
        (Json.str (s ++ chatContextStr agent (env.ts n) ctx)) :: post ∧
    (∀ k, k ≠ "content" →
      objLookup k (pyDictSet m "content"
        (Json.str (s ++ chatContextStr agent (env.ts n) ctx))) = objLookup k m) := by
  constructor
  · have hne : (pre ++ m :: post).isEmpty = false := by
      cases pre <;> rfl
    have hmut := chatMutate_spec (chatContextStr agent (env.ts n) ctx) pre post m s
      hpre hm hc
    unfold chatRun
    simp only [hne, Bool.false_eq_true, if_false, hmut]
  · intro k hk
    exact objLookup_objInsert_ne m k "content" _ hk

/-- Witness for C10: a system entry, then a user entry with an extra
field, mutated under a concrete environment. -/
theorem C10_chat_mutation_witness :
    (chatRun
        { llm := fun _ _ => some "R", ts := fun _ => "T0", clock := fun _ => 0,
          managerId := "m", frontendId := "f", backendId := "b" }
        0 ⟨"Manager", "manager", "m"⟩
        ([[("role", Json.str "system"), ("content", Json.str "sys")],
          [("role", Json.str "user"), ("content", Json.str "hi"), ("extra", Json.num 1)]])
        none).1 =
      [[("role", Json.str "system"), ("content", Json.str "sys")],
       [("role", Json.str "user"),
        ("content", Json.str ("hi" ++ chatContextStr ⟨"Manager", "manager", "m"⟩ "T0" none)),
        ("extra", Json.num 1)]] ∧
    objLookup "extra"
      (pyDictSet [("role", Json.str "user"), ("content", Json.str "hi"), ("extra", Json.num 1)]
        "content" (Json.str ("hi" ++ chatContextStr ⟨"Manager", "manager", "m"⟩ "T0" none))) =
      some (Json.num 1) := by
  have h := C10_chat_mutation
    { llm := fun _ _ => some "R", ts := fun _ => "T0", clock := fun _ => 0,
      managerId := "m", frontendId := "f", backendId := "b" }
    0 ⟨"Manager", "manager", "m"⟩ none
    [[("role", Json.str "system"), ("content", Json.str "sys")]]
    []
    [("role", Json.str "user"), ("content", Json.str "hi"), ("extra", Json.num 1)]
    "hi"
    (by intro m' hm'; simp at hm'; subst hm'; rfl)
    rfl rfl
  refine ⟨?_, ?_⟩
  · have := h.1
    simpa [pyDictSet, objInsert] using this
  · have := h.2 "extra" (by decide)
    rw [this]
    rfl

/-- On a parsed object, the update chain yields the present values
with empty-list defaults. -/
theorem updateFields_obj (o : List (String × Json)) :
    updateFields (Json.obj o) =
      (pyGetD o "frontend_tasks" (Json.arr []), pyGetD o "backend_tasks" (Json.arr []),
       pyGetD o "integration_points" (Json.arr [])) := by
  unfold updateFields
  rw [fieldUpdate_obj, fieldUpdate_obj, fieldUpdate_obj]
  simp [pyGetD]

/-- On any parsed non-object, the update chain leaves all three
fields empty (either every membership test fails, or a raised
`TypeError` is caught and resets them). -/
theorem updateFields_non_obj (j : Json) (h : ∀ o, j ≠ Json.obj o) :
    updateFields j = (Json.arr [], Json.arr [], Json.arr []) := by
  cases j with
  | obj o => exact absurd rfl (h o)
  | null => rfl
  | bool b => rfl
  | num n => rfl
  | str s =>
    unfold updateFields fieldUpdate pyMembership pyGetItemKey
    cases h1 : sContains "frontend_tasks" s <;>
      cases h2 : sContains "backend_tasks" s <;>
        cases h3 : sContains "integration_points" s <;> simp [h1, h2, h3]
  | arr xs =>
    unfold updateFields fieldUpdate pyMembership pyGetItemKey
    cases h1 : xs.any (fun x => match x with | Json.str s => s = "frontend_tasks" | _ => false) <;>
      cases h2 : xs.any (fun x => match x with | Json.str s => s = "backend_tasks" | _ => false) <;>
        cases h3 : xs.any (fun x => match x with | Json.str s => s = "integration_points" | _ => false) <;>
          simp [h1, h2, h3]

/-- Claim C1 (amended): the parsing chain of `analyze_task` on the
extraction response: a full parse producing an object yields its
three field values with empty-list defaults; a full parse producing
a non-object leaves all three empty; on a failed full parse, the
greedy span from the first opening brace to the last closing brace
(not the first balanced substring — see the counterexample) is
parsed, an object giving its fields with defaults, anything else
giving empty fields; with no such span all three fields are empty.
The chain is a total function: nothing escapes this boundary. -/
theorem C1_parse_chain (r : String) :
    (∀ o, json_loads r = some (Json.obj o) →
      parseExtraction r =
        (pyGetD o "frontend_tasks" (Json.arr []), pyGetD o "backend_tasks" (Json.arr []),
         pyGetD o "integration_points" (Json.arr []))) ∧
    (∀ j, json_loads r = some j → (∀ o, j ≠ Json.obj o) →
      parseExtraction r = (Json.arr [], Json.arr [], Json.arr [])) ∧
    (∀ sub o, json_loads r = none → greedySpan r = some sub →
      json_loads sub = some (Json.obj o) →
      parseExtraction r =
        (pyGetD o "frontend_tasks" (Json.arr []), pyGetD o "backend_tasks" (Json.arr []),
         pyGetD o "integration_points" (Json.arr []))) ∧
    (∀ sub, json_loads r = none → greedySpan r = some sub → json_loads sub = none →
      parseExtraction r = (Json.arr [], Json.arr [], Json.arr [])) ∧
    (json_loads r = none → greedySpan r = none →
      parseExtraction r = (Json.arr [], Json.arr [], Json.arr [])) := by
  refine ⟨?_, ?_, ?_, ?_, ?_⟩
  · intro o hfull
    unfold parseExtraction parsedJsonOf
    rw [hfull]
    exact updateFields_obj o
  · intro j hfull hnon
    unfold parseExtraction parsedJsonOf
    rw [hfull]
    exact updateFields_non_obj j hnon
  · intro sub o hfull hspan hsub
    unfold parseExtraction parsedJsonOf
    rw [hfull, hspan]
    simp only [hsub, Option.getD_some]
    exact updateFields_obj o
  · intro sub hfull hspan hsub
    unfold parseExtraction parsedJsonOf
    rw [hfull, hspan]
    simp only [hsub, Option.getD_none]
    rw [show defaultParsed = Json.obj [("frontend_tasks", Json.arr []),
      ("backend_tasks", Json.arr []), ("integration_points", Json.arr [])] from rfl]
    rw [updateFields_obj]
    rfl
  · intro hfull hspan
    unfold parseExtraction parsedJsonOf
    rw [hfull, hspan]
    rw [show defaultParsed = Json.obj [("frontend_tasks", Json.arr []),
      ("backend_tasks", Json.arr []), ("integration_points", Json.arr [])] from rfl]
    rw [updateFields_obj]
    rfl

/-- Witness for C1 at concrete extraction responses covering the
object, non-object, greedy-span and no-span cases. -/
theorem C1_parse_chain_witness :
    parseExtraction "\x7b\"frontend_tasks\": [\"a\"]\x7d" =
      (Json.arr [Json.str "a"], Json.arr [], Json.arr []) ∧
    parseExtraction "42" = (Json.arr [], Json.arr [], Json.arr []) ∧
    parseExtraction "prose \x7b\"backend_tasks\": [\"b\"]\x7d" =
      (Json.arr [], Json.arr [Json.str "b"], Json.arr []) ∧
    parseExtraction "no json here" = (Json.arr [], Json.arr [], Json.arr []) := by
  refine ⟨?_, ?_, ?_, ?_⟩
  · have h := (C1_parse_chain "\x7b\"frontend_tasks\": [\"a\"]\x7d").1
      [("frontend_tasks", Json.arr [Json.str "a"])] rfl
    rw [h]
    rfl
  · have h := (C1_parse_chain "42").2.1 (Json.num 42) rfl
      (fun o hh => by cases hh)
    rw [h]
  · have h := (C1_parse_chain "prose \x7b\"backend_tasks\": [\"b\"]\x7d").2.2.1
      "\x7b\"backend_tasks\": [\"b\"]\x7d" [("backend_tasks", Json.arr [Json.str "b"])]
      rfl rfl rfl
    rw [h]
    rfl
  · have h := (C1_parse_chain "no json here").2.2.2.2 rfl rfl
    rw [h]

/-- Counterexample to C1 as stated: a response on which the greedy
brace span (first `ob` to last `cb`) differs from the first balanced
brace substring; the code parses the greedy span, fails, and leaves
every field empty, while parsing the first balanced substring the
same way would put `a` into the frontend list. -/
theorem C1_greedy_not_balanced :
    firstBalancedSubstr "\x7b\"frontend_tasks\": [\"a\"]\x7d x \x7b\"b\": \x7d" =
      some "\x7b\"frontend_tasks\": [\"a\"]\x7d" ∧
    parseExtraction "\x7b\"frontend_tasks\": [\"a\"]\x7d" =
      (Json.arr [Json.str "a"], Json.arr [], Json.arr []) ∧
    parseExtraction "\x7b\"frontend_tasks\": [\"a\"]\x7d x \x7b\"b\": \x7d" =
      (Json.arr [], Json.arr [], Json.arr []) ∧
    (Json.arr [Json.str "a"] : Json) ≠ Json.arr [] := by
  refine ⟨rfl, rfl, rfl, by simp⟩

/-- Claim C3: any exception raised during analysis, sub-task
execution, review or integration is caught at the `solve_task`
boundary: the caller receives the formatted error-report string —
the same type as a success result — and that string contains the
error message. -/
theorem C3_error_boundary (env : Env) (desc : String) (timeout : Int) (e : String)
    (rec1 : Option TaskRecord) (h : solveTaskCore env desc timeout = (.error e, rec1)) :
    (solveTaskFull env desc timeout).1 = errReport e ∧
    sContains e ((solveTaskFull env desc timeout).1) = true := by
  unfold solveTaskFull
  rw [h]
  exact ⟨rfl, sContains_errReport e⟩

/-- The environment used to witness the error boundary: the very
first completion call fails. -/
def envAllFail : Env :=
  { llm := fun _ _ => none, ts := fun _ => "T", clock := fun _ => 0,
    managerId := "m", frontendId := "f", backendId := "b" }

/-- Witness for C3: a run whose first completion call raises. -/
theorem C3_error_boundary_witness :
    (solveTaskFull envAllFail "tâche" 300).1 = errReport connectionErrorMsg ∧
    sContains connectionErrorMsg ((solveTaskFull envAllFail "tâche" 300).1) = true :=
  C3_error_boundary envAllFail "tâche" 300 connectionErrorMsg none rfl

/-- Claim C2 (amended): a run that completes without an exception
records status `completed` and stores the returned solution in
`final_solution`; a run that raises still returns a non-empty
error-report string, but the state record — when it exists at all —
keeps the status `analyzed` (never `failed`) and carries no
`final_solution`. -/
theorem C2_status_invariant (env : Env) (desc : String) (timeout : Int) :
    (∀ s rec1, solveTaskCore env desc timeout = (.ok s, rec1) →
      (solveTaskFull env desc timeout).1 = s ∧
      ∃ r, rec1 = some r ∧ r.status = "completed" ∧ r.final_solution = some s) ∧
    (∀ e rec1, solveTaskCore env desc timeout = (.error e, rec1) →
      (solveTaskFull env desc timeout).1 = errReport e ∧
      (solveTaskFull env desc timeout).1 ≠ "" ∧
      ∀ r, rec1 = some r → r.status = "analyzed" ∧ r.final_solution = none) := by
  constructor
  · intro s rec1 h
    have hfull : (solveTaskFull env desc timeout).1 = s := by
      unfold solveTaskFull
      rw [h]
    refine ⟨hfull, ?_⟩
    simp only [solveTaskCore] at h
    repeat' split at h
    all_goals (
      rw [Prod.mk.injEq] at h
      obtain ⟨h1, h2⟩ := h
      first
        | exact Except.noConfusion h1
        | (injection h1 with h1; subst h1; exact ⟨_, h2.symm, rfl, rfl⟩))
  · intro e rec1 h
    have hfull : (solveTaskFull env desc timeout).1 = errReport e := by
      unfold solveTaskFull
      rw [h]
    refine ⟨hfull, by rw [hfull]; exact errReport_ne_empty e, ?_⟩
    simp only [solveTaskCore] at h
    repeat' split at h
    all_goals (
      rw [Prod.mk.injEq] at h
      obtain ⟨h1, h2⟩ := h
      first
        | exact Except.noConfusion h1
        | (intro r hr; rw [← h2] at hr;
           first
             | exact Option.noConfusion hr
             | (injection hr with hr; subst hr; exact ⟨rfl, rfl⟩)))

/-- The environment for the C2 counterexample: analysis and
extraction succeed with one frontend sub-task, then the first
worker classification call fails at transport level. -/
def envC2 : Env :=
  { llm := fun n _ =>
      if n = 0 then some "ANALYSE"
      else if n = 1 then some "\x7b\"frontend_tasks\": [\"t1\"]\x7d"
      else none,
    ts := fun _ => "T", clock := fun _ => 0,
    managerId := "m", frontendId := "f", backendId := "b" }

/-- Witness for C2 under a fully successful run and under `envC2`. -/
theorem C2_status_invariant_witness :
    ((solveTaskFull envAllFail "tâche" 300).1 = errReport connectionErrorMsg ∧
      (solveTaskFull envAllFail "tâche" 300).1 ≠ "" ∧
      ∀ r, (none : Option TaskRecord) = some r →
        r.status = "analyzed" ∧ r.final_solution = none) ∧
    ((solveTaskFull envC2 "tâche" 300).1 = errReport connectionErrorMsg ∧
      (solveTaskFull envC2 "tâche" 300).1 ≠ "" ∧
      ∀ r, (solveTaskCore envC2 "tâche" 300).2 = some r →
        r.status = "analyzed" ∧ r.final_solution = none) :=
  ⟨(C2_status_invariant envAllFail "tâche" 300).2 connectionErrorMsg none rfl,
   (C2_status_invariant envC2 "tâche" 300).2 connectionErrorMsg
     (solveTaskCore envC2 "tâche" 300).2 rfl⟩

/-- Counterexample to C2 as stated: under `envC2` the run fails after
the record was created; the record survives with status `analyzed` —
neither `completed` nor `failed` (no code path ever writes a
`failed` status) — and its `final_solution` is absent rather than a
non-empty string. -/
theorem C2_no_failed_status :
    ((solveTaskFull envC2 "tâche" 300).2).map TaskRecord.status = some "analyzed" ∧
    ((solveTaskFull envC2 "tâche" 300).2).map TaskRecord.final_solution = some none ∧
    "analyzed" ≠ "completed" ∧ "analyzed" ≠ "failed" := by
  refine ⟨rfl, rfl, by decide, by decide⟩

/-- Every collected loop entry was gated by a passed timeout check:
the check of iteration `j` reads clock index `tc + j`, and an entry
is only produced when it did not exceed the budget. -/
theorem runSpecLoop_gate (env : Env) (analysis : List (String × Json)) (role : String)
    (start timeout : Int) :
    ∀ (tasks : List Json) (idx : Int) (n tc j : Nat),
      j < (runSpecLoop env analysis role start timeout tasks idx n tc).entries.length →
      env.clock (tc + j) - start ≤ timeout := by
  intro tasks
  induction tasks with
  | nil =>
    intro idx n tc j hj
    simp [runSpecLoop] at hj
  | cons task rest ih =>
    intro idx n tc j hj
    simp only [runSpecLoop] at hj
    by_cases hclk : env.clock tc - start > timeout
    · rw [if_pos hclk] at hj
      simp at hj
    · rw [if_neg hclk] at hj
      split at hj
      · simp at hj
      · split at hj
        · simp at hj
        · split at hj
          · simp at hj
          · simp only [List.length_cons] at hj
            cases j with
            | zero =>
              simpa using Int.not_lt.mp hclk
            | succ j =>
              have hrec : tc + (j + 1) = (tc + 1) + j := by omega
              rw [hrec]
              have hj' := Nat.lt_of_succ_lt_succ hj
              exact ih (idx + 1) _ (tc + 1) j hj'

/-- Claim C4: (first) once elapsed wall-clock time exceeds the
timeout, the next check stops the specialization loop at once — no
assignment is built, no worker or review call is made (the service
counter is unchanged) and no entry is added; (second) every entry
that was collected passed its timeout check; (third and fourth)
every approved collected solution is contained in the corresponding
integration input, so early-stopped results are integrated, not
discarded. -/
theorem C4_timeout_property :
    (∀ (env : Env) (analysis : List (String × Json)) (role : String)
        (start timeout : Int) (task : Json) (rest : List Json) (idx : Int) (n tc : Nat),
        env.clock tc - start > timeout →
        runSpecLoop env analysis role start timeout (task :: rest) idx n tc =
          ⟨[], n, tc + 1, none⟩) ∧
    (∀ (env : Env) (analysis : List (String × Json)) (role : String)
        (start timeout : Int) (tasks : List Json) (idx : Int) (n tc j : Nat),
        j < (runSpecLoop env analysis role start timeout tasks idx n tc).entries.length →
        env.clock (tc + j) - start ≤ timeout) ∧
    (∀ (fr br : List Entry) (e : Entry), e ∈ fr → e.approved = true →
        sContains e.solution (integrationInputs fr br).1 = true) ∧
    (∀ (fr br : List Entry) (e : Entry), e ∈ br → e.approved = true →
        sContains e.solution (integrationInputs fr br).2 = true) := by
  refine ⟨?_, ?_, ?_, ?_⟩
  · intro env analysis role start timeout task rest idx n tc hclk
    simp [runSpecLoop, hclk]
  · intro env analysis role start timeout tasks idx n tc j hj
    exact runSpecLoop_gate env analysis role start timeout tasks idx n tc j hj
  · intro fr br e he ha
    unfold integrationInputs
    simp only []
    by_cases hfa :
        pyJoin "\n\n" ((fr.filter (fun e => e.approved)).map (fun e => e.solution)) = ""
    · rw [if_pos hfa]
      exact sContains_join "\n\n" e.solution _ (List.mem_map_of_mem _ he)
    · rw [if_neg hfa]
      exact sContains_join "\n\n" e.solution _
        (List.mem_map_of_mem _ (List.mem_filter.mpr ⟨he, ha⟩))
  · intro fr br e he ha
    unfold integrationInputs
    simp only []
    by_cases hba :
        pyJoin "\n\n" ((br.filter (fun e => e.approved)).map (fun e => e.solution)) = ""
    · rw [if_pos hba]
      exact sContains_join "\n\n" e.solution _ (List.mem_map_of_mem _ he)
    · rw [if_neg hba]
      exact sContains_join "\n\n" e.solution _
        (List.mem_map_of_mem _ (List.mem_filter.mpr ⟨he, ha⟩))

/-- A run environment for the C4 witness in which time has already
exceeded the budget. -/
def envLate : Env :=
  { llm := fun _ _ => some "R", ts := fun _ => "T", clock := fun _ => 1000,
    managerId := "m", frontendId := "f", backendId := "b" }

/-- A concrete approved entry for the C4 witness. -/
def entryWit : Entry :=
  ⟨Json.str "t", "SOL", ⟨"frontend_dev", "Développeur Frontend", Json.str "T", "EV", true⟩, true⟩

/-- Witness for C4: a late clock stops the loop immediately with the
counters advanced only by the check, and a concrete approved
solution is embedded in the integration input. -/
theorem C4_timeout_property_witness :
    runSpecLoop envLate [] "frontend_dev" 0 300 [Json.str "t"] 0 5 7 = ⟨[], 5, 8, none⟩ ∧
    sContains "SOL" (integrationInputs [entryWit] []).1 = true :=
  ⟨C4_timeout_property.1 envLate [] "frontend_dev" 0 300 (Json.str "t") [] 0 5 7 (by decide),
   C4_timeout_property.2.2.1 [entryWit] [] entryWit (List.mem_singleton.mpr rfl) rfl⟩

/-- The environment induced by a deterministic completion service
(a pure function of the prompt) and a timestamp stream. -/
def detEnv (svc : String → String) (tsf : Nat → String) : Env :=
  { llm := fun _ p => some (svc p), ts := tsf, clock := fun _ => 0,
    managerId := "m", frontendId := "f", backendId := "b" }

/-- Claim C7 (amended): against a deterministic completion service,
two `integrate_solutions` calls with identical task data and
solution texts return identical strings precisely when the two calls
observe the same timestamp — the timestamp is serialized into the
prompt via the context envelope, so equal timestamps give equal
prompts and equal outputs (see the counterexample for unequal
timestamps). -/
theorem C7_integration_deterministic (svc : String → String) (tsf : Nat → String)
    (td : List (String × Json)) (fs bs : String) (n1 n2 : Nat) (h : tsf n1 = tsf n2) :
    (integrateSolutionsM (detEnv svc tsf) n1 td fs bs).map Prod.fst =
    (integrateSolutionsM (detEnv svc tsf) n2 td fs bs).map Prod.fst := by
  unfold integrateSolutionsM processE processR managerAgent detEnv
  by_cases hc : fs = "" ∧ bs = ""
  · rw [if_pos hc, if_pos hc]
    simp [h, Except.map]
  · rw [if_neg hc, if_neg hc]
    simp [h, Except.map]

/-- Witness for C7: the identity service with a constant timestamp
stream at two different call indices. -/
theorem C7_integration_deterministic_witness :
    (integrateSolutionsM (detEnv id (fun _ => "T0")) 0 [] "f" "b").map Prod.fst =
    (integrateSolutionsM (detEnv id (fun _ => "T0")) 4 [] "f" "b").map Prod.fst :=
  C7_integration_deterministic id (fun _ => "T0") [] "f" "b" 0 4 rfl

/-- The timestamp stream of the C7 counterexample: the second call
observes a later timestamp, as `datetime.now()` does. -/
def tsSplit : Nat → String :=
  fun n => if n = 0 then "2024-01-01T00:00:00" else "2024-01-01T00:00:01"

/-- Counterexample to C7 as stated: identical task data and solution
texts against the deterministic identity service, yet the two calls
return different strings because the serialized context envelope
embeds the timestamp into the prompt. -/
theorem C7_timestamp_breaks_idempotence :
    (integrateSolutionsM (detEnv id tsSplit) 0 [] "f" "b").toOption.map Prod.fst ≠
    (integrateSolutionsM (detEnv id tsSplit) 1 [] "f" "b").toOption.map Prod.fst := by
  set_option maxRecDepth 100000 in decide

end AiTeam
